import Mathlib

/-!
Verification of the metric-extraction layer of NetDynFlow
(src/netdynflow/metrics.py).

The module exposes three stateless reductions over a rank-3 "dynamic
tensor" of shape (timesteps, N, N):

* TotalEvolution : per-time-step sum of all entries of each N x N slice,
  computed in the source as dyntensor.sum(axis=1).sum(axis=1);
* NodeEvolution  : per-node input (column-sum) and output (row-sum)
  series, computed as dyntensor.sum(axis=1).T and dyntensor.sum(axis=2).T;
* Diversity      : per-time-step ratio std/mean over each slice, where
  std is numpy's population standard deviation (ddof = 0).

Each function first runs the same two assertions: the shape must have
rank 3 and its trailing two dimensions must be equal; a failing
assertion aborts the call with no output, which we embed as the error
branch of Except.

We embed a numpy ndarray as its shape together with its row-major
(C-order) flat data, with rational entries standing for the exact values
of the floating-point entries.  Lean real division is used for the
ratio in Diversity; the IEEE division semantics of the source (special
values instead of an exception when the divisor is zero) is refined
separately by DiversityIEEE through an explicit model of floating-point
division over exact operands.
-/

namespace NetDynFlow

/-- A numpy ndarray: its shape and its row-major flat data.  Rational
entries model the exact values stored in the float64 buffer. -/
structure NDArray where
  shape : List ℕ
  data : List ℚ
  deriving DecidableEq

/-- Entry [t, i, j] of a rank-3 array whose trailing dimensions are
n1 x n2: row-major flat index t*(n1*n2) + i*n2 + j.  Out-of-range reads
default to 0 (never reached under the shape hypotheses of the theorems
below). -/
def entry (a : NDArray) (n1 n2 t i j : ℕ) : ℚ :=
  a.data.getD (t * (n1 * n2) + i * n2 + j) 0

/-- Message of the first assertion in each function of metrics.py. -/
def rank3Msg : String := "Input not aligned. Tensor of rank-3 expected"

/-- Message of the second assertion in each function of metrics.py. -/
def squareMsg : String := "Input not aligned. Shape (nsteps x N x N) expected"

/-- The flattened N1*N2 entries of time slice t, in row-major order:
dyntensor[t] viewed as a flat list.  numpy's std and mean reduce over
exactly this collection. -/
def sliceList (a : NDArray) (n1 n2 t : ℕ) : List ℚ :=
  (List.range (n1 * n2)).map (fun k => a.data.getD (t * (n1 * n2) + k) 0)

/-- TotalEvolution (metrics.py lines 50-72).  After the two shape
assertions, dyntensor.sum(axis=1).sum(axis=1): the inner sum over axis 1
(row index i) yields a (nsteps, N2) array, the outer sum collapses the
remaining node axis (column index j). -/
def TotalEvolution (dyntensor : NDArray) : Except String (List ℚ) :=
  match dyntensor.shape with
  | [nsteps, n1, n2] =>
      if n1 = n2 then
        .ok ((List.range nsteps).map (fun t =>
          ∑ j ∈ Finset.range n2, ∑ i ∈ Finset.range n1, entry dyntensor n1 n2 t i j))
      else .error squareMsg
  | _ => .error rank3Msg

/-- NodeEvolution (metrics.py lines 74-102).  After the same shape
assertions, innodedyn = dyntensor.sum(axis=1).T and
outnodedyn = dyntensor.sum(axis=2).T; the transpose turns the
(nsteps, N) axis-sums into the node-major (N, nsteps) layout, which we
build directly.  The directed flag is accepted and never read. -/
def NodeEvolution (dyntensor : NDArray) (directed : Bool) :
    Except String (List (List ℚ) × List (List ℚ)) :=
  match dyntensor.shape with
  | [nsteps, n1, n2] =>
      if n1 = n2 then
        .ok ((List.range n2).map (fun j => (List.range nsteps).map (fun t =>
               ∑ i ∈ Finset.range n1, entry dyntensor n1 n2 t i j)),
             (List.range n1).map (fun i => (List.range nsteps).map (fun t =>
               ∑ j ∈ Finset.range n2, entry dyntensor n1 n2 t i j)))
      else .error squareMsg
  | _ => .error rank3Msg

/-- numpy ndarray.mean over the flattened entries: sum divided by the
number of elements. -/
def npMean (l : List ℚ) : ℚ := l.sum / l.length

/-- numpy ndarray.std with its default ddof = 0: the square root of the
mean of the squared deviations from the mean (population standard
deviation). -/
noncomputable def npStd (l : List ℚ) : ℝ :=
  Real.sqrt ((l.map (fun x : ℚ => ((x : ℝ) - ((npMean l : ℚ) : ℝ)) ^ 2)).sum / l.length)

/-- Diversity (metrics.py lines 104-128).  After the same shape
assertions, a loop over t filling diversity[t] = dyntensor[t].std() /
dyntensor[t].mean().  Lean real division stands for the float division
(see DiversityIEEE for the zero-divisor refinement). -/
noncomputable def Diversity (dyntensor : NDArray) : Except String (List ℝ) :=
  match dyntensor.shape with
  | [nsteps, n1, n2] =>
      if n1 = n2 then
        .ok ((List.range nsteps).map (fun t =>
          npStd (sliceList dyntensor n1 n2 t) /
            ((npMean (sliceList dyntensor n1 n2 t) : ℚ) : ℝ)))
      else .error squareMsg
  | _ => .error rank3Msg

/-- Value of an IEEE-754 division: either an ordinary number or one of
the special values NaN, +inf, -inf. -/
inductive FVal where
  | num : ℝ → FVal
  | nan : FVal
  | pinf : FVal
  | ninf : FVal

/-- Whether an FVal is one of the IEEE-754 special values. -/
def FVal.isSpecial : FVal → Bool
  | .num _ => false
  | _ => true

/-- IEEE-754 division on exact (representable) operands: a nonzero
divisor gives the exact quotient; x / 0 gives NaN when x = 0 and a
signed infinity otherwise. -/
noncomputable def ieeeDiv (x y : ℝ) : FVal :=
  if y ≠ 0 then .num (x / y)
  else if x = 0 then .nan
  else if 0 < x then .pinf
  else .ninf

/-- Diversity with the final float division modelled by ieeeDiv instead
of Lean's real division: identical to Diversity except that a zero-mean
slice produces an IEEE special value, as the source's floating-point
division does. -/
noncomputable def DiversityIEEE (dyntensor : NDArray) : Except String (List FVal) :=
  match dyntensor.shape with
  | [nsteps, n1, n2] =>
      if n1 = n2 then
        .ok ((List.range nsteps).map (fun t =>
          ieeeDiv (npStd (sliceList dyntensor n1 n2 t))
            ((npMean (sliceList dyntensor n1 n2 t) : ℚ) : ℝ)))
      else .error squareMsg
  | _ => .error rank3Msg

/-- The shared precondition of all three metrics: rank 3 with equal
trailing dimensions. -/
def squareRank3 (s : List ℕ) : Prop := ∃ T N, s = [T, N, N]

/-- Whether an Except value is the success branch. -/
def isOkE {ε α : Type} : Except ε α → Bool
  | .ok _ => true
  | .error _ => false

/-- Spec-side population standard deviation of a list of values, written
from the spec's words: the square root of the average squared deviation
from the arithmetic mean, dividing by the count n (population, not the
sample-corrected n - 1). -/
noncomputable def popStdSpec (l : List ℚ) : ℝ :=
  Real.sqrt ((l.map (fun x : ℚ => ((x : ℝ) - ((l.sum : ℚ) : ℝ) / l.length) ^ 2)).sum
    / l.length)

/-- Spec-side arithmetic mean of a list of values. -/
def meanSpec (l : List ℚ) : ℚ := l.sum / l.length

/-- Concrete example tensor from the spec's scenario: shape (2, 2, 2),
slice 0 = [[1,2],[3,4]], slice 1 = [[0,0],[0,0]]. -/
def exTensor : NDArray := ⟨[2, 2, 2], [1, 2, 3, 4, 0, 0, 0, 0]⟩

/-- Concrete tensor with zero time steps: shape (0, 3, 3). -/
def exEmptyTime : NDArray := ⟨[0, 3, 3], []⟩

/-- Concrete tensor with zero nodes: shape (5, 0, 0). -/
def exEmptyNodes : NDArray := ⟨[5, 0, 0], []⟩

/-! ## Helper lemmas -/

lemma getD_map_range {α : Type} (f : ℕ → α) (n i : ℕ) (d : α) (h : i < n) :
    ((List.range n).map f).getD i d = f i := by
  rw [List.getD_eq_getElem _ _ (by simp [h]), List.getElem_map, List.getElem_range]

lemma range_map_sum (f : ℕ → ℚ) (n : ℕ) :
    ((List.range n).map f).sum = ∑ k ∈ Finset.range n, f k := by
  induction n with
  | zero => simp
  | succ n ih =>
      rw [List.range_succ, List.map_append, List.sum_append, Finset.sum_range_succ, ih]
      simp

lemma sum_range_add_split (f : ℕ → ℚ) (a b : ℕ) :
    ∑ k ∈ Finset.range (a + b), f k
      = (∑ k ∈ Finset.range a, f k) + ∑ j ∈ Finset.range b, f (a + j) := by
  induction b with
  | zero => simp
  | succ b ih =>
      rw [Nat.add_succ, Finset.sum_range_succ, ih, Finset.sum_range_succ, add_assoc]

lemma sum_range_mul_split (f : ℕ → ℚ) (m n : ℕ) :
    ∑ k ∈ Finset.range (m * n), f k
      = ∑ i ∈ Finset.range m, ∑ j ∈ Finset.range n, f (i * n + j) := by
  induction m with
  | zero => simp
  | succ m ih =>
      rw [Nat.succ_mul, sum_range_add_split f (m * n) n, ih, Finset.sum_range_succ]

/-- The flattened sum of a slice equals the nested row-then-column sum of
its entries. -/
lemma sliceList_sum (a : NDArray) (n t : ℕ) :
    (sliceList a n n t).sum
      = ∑ i ∈ Finset.range n, ∑ j ∈ Finset.range n, entry a n n t i j := by
  unfold sliceList entry
  rw [range_map_sum, sum_range_mul_split]
  refine Finset.sum_congr rfl (fun i _ => Finset.sum_congr rfl (fun j _ => ?_))
  rw [Nat.add_assoc]

lemma TotalEvolution_ok (a : NDArray) (T N : ℕ) (h : a.shape = [T, N, N]) :
    TotalEvolution a = .ok ((List.range T).map (fun t =>
      ∑ j ∈ Finset.range N, ∑ i ∈ Finset.range N, entry a N N t i j)) := by
  unfold TotalEvolution
  rw [h]
  simp

lemma NodeEvolution_ok (a : NDArray) (d : Bool) (T N : ℕ) (h : a.shape = [T, N, N]) :
    NodeEvolution a d = .ok
      ((List.range N).map (fun j => (List.range T).map (fun t =>
         ∑ i ∈ Finset.range N, entry a N N t i j)),
       (List.range N).map (fun i => (List.range T).map (fun t =>
         ∑ j ∈ Finset.range N, entry a N N t i j))) := by
  unfold NodeEvolution
  rw [h]
  simp

lemma Diversity_ok (a : NDArray) (T N : ℕ) (h : a.shape = [T, N, N]) :
    Diversity a = .ok ((List.range T).map (fun t =>
      npStd (sliceList a N N t) / ((npMean (sliceList a N N t) : ℚ) : ℝ))) := by
  unfold Diversity
  rw [h]
  simp

lemma DiversityIEEE_ok (a : NDArray) (T N : ℕ) (h : a.shape = [T, N, N]) :
    DiversityIEEE a = .ok ((List.range T).map (fun t =>
      ieeeDiv (npStd (sliceList a N N t)) ((npMean (sliceList a N N t) : ℚ) : ℝ))) := by
  unfold DiversityIEEE
  rw [h]
  simp

/-- numpy's ddof = 0 standard deviation coincides with the spec-side
population standard deviation. -/
lemma npStd_eq_popStdSpec (l : List ℚ) : npStd l = popStdSpec l := by
  have hfun : (fun x : ℚ => ((x : ℝ) - ((npMean l : ℚ) : ℝ)) ^ 2)
      = (fun x : ℚ => ((x : ℝ) - ((l.sum : ℚ) : ℝ) / l.length) ^ 2) := by
    funext x
    unfold npMean
    push_cast
    ring
  unfold npStd popStdSpec
  rw [hfun]

lemma TotalEvolution_isOk (a : NDArray) :
    isOkE (TotalEvolution a) = true ↔ squareRank3 a.shape := by
  obtain ⟨s, dat⟩ := a
  rcases s with _ | ⟨x, _ | ⟨y, _ | ⟨z, _ | ⟨w, s⟩⟩⟩⟩ <;>
    simp [TotalEvolution, squareRank3, isOkE]
  by_cases hyz : y = z
  · simp [hyz, isOkE]
  · simp [hyz, isOkE]
    exact fun h => hyz h.symm

lemma NodeEvolution_isOk (a : NDArray) (d : Bool) :
    isOkE (NodeEvolution a d) = true ↔ squareRank3 a.shape := by
  obtain ⟨s, dat⟩ := a
  rcases s with _ | ⟨x, _ | ⟨y, _ | ⟨z, _ | ⟨w, s⟩⟩⟩⟩ <;>
    simp [NodeEvolution, squareRank3, isOkE]
  by_cases hyz : y = z
  · simp [hyz, isOkE]
  · simp [hyz, isOkE]
    exact fun h => hyz h.symm

lemma Diversity_isOk (a : NDArray) :
    isOkE (Diversity a) = true ↔ squareRank3 a.shape := by
  obtain ⟨s, dat⟩ := a
  rcases s with _ | ⟨x, _ | ⟨y, _ | ⟨z, _ | ⟨w, s⟩⟩⟩⟩ <;>
    simp [Diversity, squareRank3, isOkE]
  by_cases hyz : y = z
  · simp [hyz, isOkE]
  · simp [hyz, isOkE]
    exact fun h => hyz h.symm

lemma bool_false_iff_not (b : Bool) (P : Prop) (h : b = true ↔ P) :
    b = false ↔ ¬ P := by
  cases b <;> simp_all

/-! ## Claim theorems -/

/-- C1: for every tensor of shape (T, N, N), TotalEvolution succeeds with
a series of length T whose entry at each time step t is the sum of all
N*N entries of the slice at t. -/
theorem TotalEvolution_slice_sums (a : NDArray) (T N : ℕ) (h : a.shape = [T, N, N]) :
    ∃ l, TotalEvolution a = .ok l ∧ l.length = T ∧
      ∀ t, t < T → l.getD t 0 = (sliceList a N N t).sum := by
  refine ⟨_, TotalEvolution_ok a T N h, by simp, ?_⟩
  intro t ht
  rw [getD_map_range _ _ _ _ ht, sliceList_sum]
  exact Finset.sum_comm

/-- Witness for C1 at the spec's concrete example tensor. -/
theorem TotalEvolution_slice_sums_witness :
    ∃ l, TotalEvolution exTensor = .ok l ∧ l.length = 2 ∧
      ∀ t, t < 2 → l.getD t 0 = (sliceList exTensor 2 2 t).sum :=
  TotalEvolution_slice_sums exTensor 2 2 rfl

/-- C2: for every tensor of shape (T, N, N), NodeEvolution succeeds with
a pair of arrays of shape (N, T) each; the first (inputs) at [i, t] is
the sum over column i of the slice at time t, the second (outputs) at
[i, t] is the sum over row i of the slice at time t. -/
theorem NodeEvolution_column_row_sums (a : NDArray) (d : Bool) (T N : ℕ)
    (h : a.shape = [T, N, N]) :
    ∃ p, NodeEvolution a d = .ok p ∧
      p.1.length = N ∧ p.2.length = N ∧
      (∀ i, i < N → (p.1.getD i []).length = T ∧ (p.2.getD i []).length = T) ∧
      ∀ i t, i < N → t < T →
        (p.1.getD i []).getD t 0 = (∑ k ∈ Finset.range N, entry a N N t k i) ∧
        (p.2.getD i []).getD t 0 = (∑ k ∈ Finset.range N, entry a N N t i k) := by
  refine ⟨_, NodeEvolution_ok a d T N h, by simp, by simp, ?_, ?_⟩
  · intro i hi
    constructor <;> rw [getD_map_range _ _ _ _ hi] <;> simp
  · intro i t hi ht
    constructor <;> rw [getD_map_range _ _ _ _ hi, getD_map_range _ _ _ _ ht]

/-- Witness for C2 at the spec's concrete example tensor. -/
theorem NodeEvolution_column_row_sums_witness :
    ∃ p, NodeEvolution exTensor false = .ok p ∧
      p.1.length = 2 ∧ p.2.length = 2 ∧
      (∀ i, i < 2 → (p.1.getD i []).length = 2 ∧ (p.2.getD i []).length = 2) ∧
      ∀ i t, i < 2 → t < 2 →
        (p.1.getD i []).getD t 0 = (∑ k ∈ Finset.range 2, entry exTensor 2 2 t k i) ∧
        (p.2.getD i []).getD t 0 = (∑ k ∈ Finset.range 2, entry exTensor 2 2 t i k) :=
  NodeEvolution_column_row_sums exTensor false 2 2 rfl

/-- C5: for every tensor of shape (T, N, N) and every t < T, the sum of
NodeEvolution's inputs column at t equals the sum of its outputs column
at t, and both equal TotalEvolution at t. -/
theorem NodeEvolution_mass_balance (a : NDArray) (d : Bool) (T N t : ℕ)
    (h : a.shape = [T, N, N]) (ht : t < T) :
    ∃ te p, TotalEvolution a = .ok te ∧ NodeEvolution a d = .ok p ∧
      (∑ i ∈ Finset.range N, (p.1.getD i []).getD t 0) = te.getD t 0 ∧
      (∑ i ∈ Finset.range N, (p.2.getD i []).getD t 0) = te.getD t 0 := by
  refine ⟨_, _, TotalEvolution_ok a T N h, NodeEvolution_ok a d T N h, ?_, ?_⟩ <;>
    rw [getD_map_range _ _ _ _ ht] <;>
    rw [Finset.sum_congr rfl (fun i hi => by
      rw [getD_map_range _ _ _ _ (Finset.mem_range.mp hi), getD_map_range _ _ _ _ ht])]
  exact Finset.sum_comm

/-- Witness for C5 at the spec's concrete example tensor, t = 0. -/
theorem NodeEvolution_mass_balance_witness :
    ∃ te p, TotalEvolution exTensor = .ok te ∧ NodeEvolution exTensor false = .ok p ∧
      (∑ i ∈ Finset.range 2, (p.1.getD i []).getD 0 0) = te.getD 0 0 ∧
      (∑ i ∈ Finset.range 2, (p.2.getD i []).getD 0 0) = te.getD 0 0 :=
  NodeEvolution_mass_balance exTensor false 2 2 0 rfl (by decide)

/-- C6: the directed flag of NodeEvolution does not influence the output:
for every input the results with directed = true and directed = false
coincide. -/
theorem NodeEvolution_directed_irrelevant (a : NDArray) :
    NodeEvolution a true = NodeEvolution a false := rfl

/-- C10: for every tensor of shape (T, 0, 0), NodeEvolution succeeds and
returns the pair of empty arrays of shape (0, T). -/
theorem NodeEvolution_zero_nodes (a : NDArray) (d : Bool) (T : ℕ)
    (h : a.shape = [T, 0, 0]) :
    NodeEvolution a d = .ok ([], []) := by
  have := NodeEvolution_ok a d T 0 h
  simpa using this

/-- Witness for C10 at a concrete (5, 0, 0) tensor. -/
theorem NodeEvolution_zero_nodes_witness :
    NodeEvolution exEmptyNodes false = .ok ([], []) :=
  NodeEvolution_zero_nodes exEmptyNodes false 5 rfl

/-- C3: for every tensor of shape (T, N, N) with N > 0, Diversity
succeeds with a series of length T whose entry at each time step t is
the population (not sample-corrected) standard deviation of the N*N
slice entries divided by their arithmetic mean. -/
theorem Diversity_popstd_over_mean (a : NDArray) (T N : ℕ)
    (h : a.shape = [T, N, N]) (hN : 0 < N) :
    ∃ l, Diversity a = .ok l ∧ l.length = T ∧
      ∀ t, t < T → l.getD t 0
        = popStdSpec (sliceList a N N t)
            / ((meanSpec (sliceList a N N t) : ℚ) : ℝ) := by
  refine ⟨_, Diversity_ok a T N h, by simp, ?_⟩
  intro t ht
  rw [getD_map_range _ _ _ _ ht, npStd_eq_popStdSpec]
  rfl

/-- Witness for C3 at the spec's concrete example tensor. -/
theorem Diversity_popstd_over_mean_witness :
    0 < 2 ∧ ∃ l, Diversity exTensor = .ok l ∧ l.length = 2 ∧
      ∀ t, t < 2 → l.getD t 0
        = popStdSpec (sliceList exTensor 2 2 t)
            / ((meanSpec (sliceList exTensor 2 2 t) : ℚ) : ℝ) :=
  ⟨by decide, Diversity_popstd_over_mean exTensor 2 2 rfl (by decide)⟩

/-- C4: each of TotalEvolution, NodeEvolution and Diversity fails with a
shape error (its Except error branch, carrying no output) exactly when
the input's rank is not 3 or the trailing two dimensions differ; the
check is the first thing each function does. -/
theorem metrics_shape_error_iff (a : NDArray) (d : Bool) :
    (isOkE (TotalEvolution a) = false ↔ ¬ squareRank3 a.shape)
    ∧ (isOkE (NodeEvolution a d) = false ↔ ¬ squareRank3 a.shape)
    ∧ (isOkE (Diversity a) = false ↔ ¬ squareRank3 a.shape) :=
  ⟨bool_false_iff_not _ _ (TotalEvolution_isOk a),
   bool_false_iff_not _ _ (NodeEvolution_isOk a d),
   bool_false_iff_not _ _ (Diversity_isOk a)⟩

/-- C7: for every tensor of shape (0, N, N), TotalEvolution and
Diversity return empty series and NodeEvolution returns N empty
per-node rows, all without error. -/
theorem metrics_empty_time (a : NDArray) (d : Bool) (N : ℕ)
    (h : a.shape = [0, N, N]) :
    TotalEvolution a = .ok [] ∧ Diversity a = .ok [] ∧
      ∃ p, NodeEvolution a d = .ok p ∧ p.1.length = N ∧ p.2.length = N ∧
        (∀ r ∈ p.1, r = ([] : List ℚ)) ∧ ∀ r ∈ p.2, r = ([] : List ℚ) := by
  refine ⟨?_, ?_, ⟨_, NodeEvolution_ok a d 0 N h, by simp, by simp, ?_, ?_⟩⟩
  · have := TotalEvolution_ok a 0 N h
    simpa using this
  · have := Diversity_ok a 0 N h
    simpa using this
  · intro r hr
    rw [List.mem_map] at hr
    obtain ⟨j, _, hj⟩ := hr
    simp [← hj]
  · intro r hr
    rw [List.mem_map] at hr
    obtain ⟨j, _, hj⟩ := hr
    simp [← hj]

/-- Witness for C7 at a concrete (0, 3, 3) tensor. -/
theorem metrics_empty_time_witness :
    TotalEvolution exEmptyTime = .ok [] ∧ Diversity exEmptyTime = .ok [] ∧
      ∃ p, NodeEvolution exEmptyTime false = .ok p ∧
        p.1.length = 3 ∧ p.2.length = 3 ∧
        (∀ r ∈ p.1, r = ([] : List ℚ)) ∧ ∀ r ∈ p.2, r = ([] : List ℚ) :=
  metrics_empty_time exEmptyTime false 3 rfl

/-- C8: for every tensor of shape (T, N, N) with a time slice of mean
exactly zero, Diversity under the IEEE division model returns without
error, and the entry at that time step is an IEEE-754 special value
(NaN or a signed infinity). -/
theorem DiversityIEEE_zero_mean_special (a : NDArray) (T N t : ℕ)
    (h : a.shape = [T, N, N]) (ht : t < T)
    (hm : npMean (sliceList a N N t) = 0) :
    ∃ l, DiversityIEEE a = .ok l ∧ l.length = T ∧
      (l.getD t .nan).isSpecial = true := by
  refine ⟨_, DiversityIEEE_ok a T N h, by simp, ?_⟩
  rw [getD_map_range _ _ _ _ ht, hm]
  unfold ieeeDiv
  simp only [Rat.cast_zero, ne_eq, not_true_eq_false, if_false]
  by_cases hs : npStd (sliceList a N N t) = 0
  · simp [hs, FVal.isSpecial]
  · simp only [hs, if_false]
    split <;> rfl

/-- The slice of the example tensor at t = 1 is all zeros, so its mean
is exactly zero. -/
lemma exTensor_slice1_mean : npMean (sliceList exTensor 2 2 1) = 0 := by
  have hsl : sliceList exTensor 2 2 1 = ([0, 0, 0, 0] : List ℚ) := rfl
  unfold npMean
  rw [hsl]
  simp

/-- Witness for C8 at the spec's concrete example tensor, whose slice at
t = 1 is all zeros and hence has mean zero. -/
theorem DiversityIEEE_zero_mean_special_witness :
    npMean (sliceList exTensor 2 2 1) = 0 ∧
    ∃ l, DiversityIEEE exTensor = .ok l ∧ l.length = 2 ∧
      (l.getD 1 .nan).isSpecial = true :=
  ⟨exTensor_slice1_mean,
   DiversityIEEE_zero_mean_special exTensor 2 2 1 rfl (by decide)
     exTensor_slice1_mean⟩

end NetDynFlow
